import Mathlib

/-!
Shallow embedding of the PowerFlowViz pipeline: load-profile synthesis
(daily_profile_generator.py), network assembly and hourly load population
(loadflow.py), load-table preparation (data_prepare.py) and daily
aggregation (power_flow_viz.py), together with theorems settling the
specification claims about them.

Modelling conventions.  Numeric cells are exact rationals.  A float cell
that can be NaN (a missing spreadsheet value) is an Option, with none
standing for NaN; Python truthiness of floats (NaN is truthy, 0.0 is
falsy) is modelled explicitly.  The numpy global random generator is a
position into abstract value streams; np.random.seed resets the position
as a function of the seed alone, which is exactly what makes seeded runs
reproducible.  Fallible Python code (KeyError on dict or column access,
ValueError from int() or an unknown profile name) returns Except String.
-/

namespace PFV

/-- A Python float that may be NaN: none stands for NaN. -/
abbrev PyFloat := Option ℚ

/-- Python truthiness of a float: 0.0 is falsy, every other value, NaN
included, is truthy. -/
def pyTruthy : PyFloat → Bool
  | none => true
  | some q => decide (q ≠ 0)

/-- Division of a possibly-NaN value by a nonzero constant (length / 1000
and max_i / 1000 in loadflow.py). -/
def pyDivC (v : PyFloat) (c : ℚ) : PyFloat := v.map (fun q => q / c)

/-- np.clip(x, 0, 1): lower bound first, then upper bound. -/
def clip01 (v : ℚ) : ℚ := min (max v 0) 1

/-- np.clip(x, 0, None): only the lower bound. -/
def clip0 (v : ℚ) : ℚ := max v 0

/-- Truth status of an Except value: ok yields true, error yields false. -/
def exceptOk {α : Type} : Except String α → Bool
  | Except.ok _ => true
  | Except.error _ => false

instance exceptDecEq {ε α : Type} [DecidableEq ε] [DecidableEq α] : DecidableEq (Except ε α)
  | Except.ok x, Except.ok y =>
    if h : x = y then isTrue (h ▸ rfl) else isFalse (fun hc => h (Except.ok.inj hc))
  | Except.ok _, Except.error _ => isFalse (fun hc => Except.noConfusion hc)
  | Except.error _, Except.ok _ => isFalse (fun hc => Except.noConfusion hc)
  | Except.error e1, Except.error e2 =>
    if h : e1 = e2 then isTrue (h ▸ rfl) else isFalse (fun hc => h (Except.error.inj hc))

/-- Decimal digit run of a Python int literal body. -/
def digitsToNat? (cs : List Char) : Option ℕ :=
  if cs.isEmpty then none
  else if cs.all (fun c => c.isDigit) then
    some (cs.foldl (fun n ch => 10 * n + (ch.toNat - 48)) 0)
  else none

/-- Python int(s) on a string: optional minus sign followed by decimal
digits; anything else raises ValueError (modelled as none). -/
def pyStrToInt? (s : String) : Option ℤ :=
  match s.data with
  | '-' :: rest => (digitsToNat? rest).map (fun n => -(n : ℤ))
  | cs => (digitsToNat? cs).map (fun n => (n : ℤ))

/-- The hour label f-string from the generator: two padded digits plus
a colon and minutes. -/
def hourLabel (h : ℕ) : String :=
  (if h < 10 then "0" ++ toString h else toString h) ++ ":00"

/-- self.hours in DailyLoadProfileGenerator: the 24 hour labels. -/
def hours24 : List String := (List.range 24).map hourLabel

/-! Archetype shape curves from _select_profile and _select_pv_profile,
transcribed value for value (decimal literals over the rationals are
exact). -/

def residential_weekday : List ℚ :=
  [0.25, 0.2, 0.15, 0.12, 0.15, 0.4, 0.6, 0.8,
   0.6, 0.4, 0.35, 0.3, 0.3, 0.4, 0.5, 0.6,
   0.8, 1.0, 0.9, 0.7, 0.5, 0.4, 0.35, 0.3]

def residential_weekend : List ℚ :=
  [0.35, 0.3, 0.25, 0.2, 0.25, 0.4, 0.6, 0.8,
   0.9, 1.0, 0.95, 0.85, 0.75, 0.8, 0.9, 0.95,
   1.0, 0.95, 0.85, 0.7, 0.5, 0.4, 0.35, 0.3]

def office : List ℚ :=
  [0.0, 0.0, 0.0, 0.0, 0.05, 0.2, 0.5, 0.7,
   0.9, 1.0, 1.0, 0.95, 0.95, 0.9, 0.8, 0.6,
   0.4, 0.2, 0.1, 0.05, 0.0, 0.0, 0.0, 0.0]

def industry : List ℚ :=
  [0.1, 0.1, 0.1, 0.1, 0.2, 0.4, 0.6, 0.8,
   1.0, 1.0, 1.0, 1.0, 1.0, 1.0, 1.0, 1.0,
   1.0, 0.8, 0.6, 0.4, 0.2, 0.1, 0.1, 0.1]

def hospital : List ℚ :=
  [0.7, 0.7, 0.7, 0.7, 0.75, 0.8, 0.85, 0.9,
   0.95, 1.0, 1.0, 0.95, 0.95, 0.9, 0.9, 0.9,
   0.9, 0.95, 0.95, 0.9, 0.85, 0.8, 0.75, 0.7]

def pvSummer : List ℚ :=
  [0.00, 0.00, 0.00, 0.00, 0.01, 0.05, 0.15, 0.35,
   0.60, 0.80, 0.95, 1.00, 0.98, 0.90, 0.75, 0.55,
   0.35, 0.15, 0.05, 0.01, 0.00, 0.00, 0.00, 0.00]

/-- Winter PV curve: round(v * 0.35, 4) for each summer value; every
product has at most four decimals, so the rounding is exact. -/
def pvWinter : List ℚ := pvSummer.map (fun v => v * 0.35)

def pvNight : List ℚ := List.replicate 24 0

/-- _select_profile: named archetype lookup, ValueError on an unknown
name, no silent fallback. -/
def selectProfile (name : String) : Except String (ℕ → ℚ) :=
  if name = "residential_weekday" then Except.ok (fun h => residential_weekday.getD h 0)
  else if name = "residential_weekend" then Except.ok (fun h => residential_weekend.getD h 0)
  else if name = "office" then Except.ok (fun h => office.getD h 0)
  else if name = "industry" then Except.ok (fun h => industry.getD h 0)
  else if name = "hospital" then Except.ok (fun h => hospital.getD h 0)
  else Except.error "ValueError"

/-- _select_pv_profile: named PV curve lookup, ValueError on an unknown
name. -/
def selectPvProfile (name : String) : Except String (ℕ → ℚ) :=
  if name = "summer" then Except.ok (fun h => pvSummer.getD h 0)
  else if name = "winter" then Except.ok (fun h => pvWinter.getD h 0)
  else if name = "night" then Except.ok (fun h => pvNight.getD h 0)
  else Except.error "ValueError"

/-! The numpy global generator.  The state is a position into abstract
draw streams; np.random.seed(seed) sets the position to seedFn seed and
every draw consumes one position.  The concrete distribution values are
opaque stream parameters. -/

structure Rng where
  seedFn : ℕ → ℕ
  normalStream : ℕ → ℚ
  uniformStream : ℕ → ℚ

/-- A block draw of n values starting at a position, as performed by
np.random.normal(..., size=n) or np.random.uniform(..., size=n). -/
def drawVecAux (stream : ℕ → ℚ) : ℕ → ℕ → List ℚ
  | _, 0 => []
  | pos, m + 1 => stream pos :: drawVecAux stream (pos + 1) m

/-- One row of the quantile table df_stats: an hour label and its seven
quantile breakpoints Q5..Q95. -/
structure StatsRow where
  hour : String
  q5 : ℚ
  q10 : ℚ
  q25 : ℚ
  q50 : ℚ
  q75 : ℚ
  q90 : ℚ
  q95 : ℚ
deriving DecidableEq

/-- One row of the load table df handed to the generator: Bus_ID plus the
three peak columns. -/
structure LoadRow where
  busId : String
  plmax : ℚ
  qlmax : ℚ
  pg : ℚ
deriving DecidableEq

/-- One row of a generated profile dataframe: the rendered Bus_ID and the
24 hourly values in label order. -/
structure ProfRow where
  busId : String
  vals : List ℚ
deriving DecidableEq

/-- One linear segment of np.interp between breakpoints x0 and x1. -/
def seg (u x0 x1 y0 y1 : ℚ) : ℚ := y0 + (u - x0) * (y1 - y0) / (x1 - x0)

/-- np.interp(u, [0.05, 0.10, 0.25, 0.50, 0.75, 0.90, 0.95], qvals):
clamped at the outer breakpoints, piecewise linear between them. -/
def npInterp7 (u a b c d e f g : ℚ) : ℚ :=
  if u ≤ 0.05 then a
  else if u ≤ 0.10 then seg u 0.05 0.10 a b
  else if u ≤ 0.25 then seg u 0.10 0.25 b c
  else if u ≤ 0.50 then seg u 0.25 0.50 c d
  else if u ≤ 0.75 then seg u 0.50 0.75 d e
  else if u ≤ 0.90 then seg u 0.75 0.90 e f
  else if u ≤ 0.95 then seg u 0.90 0.95 f g
  else g

/-- One stochastic sample: np.interp through the quantile breakpoints of
an hour, then np.clip(value, 0, None). -/
def stochValue (u a b c d e f g : ℚ) : ℚ := clip0 (npInterp7 u a b c d e f g)

/-- The hour loop of the deterministic branch of _generate_profile_df
(and of _generate_pv_profile_df, which has the same body): at each hour
index, with noise enabled, a vector of normal draws is consumed, the
shape value times each draw is clipped to the unit interval, and the
result scales the peak column; without noise the peak column is scaled
by the plain shape value.  Returns the 24 hour columns in order together
with the generator position after the loop. -/
def detColsAux (peaks : List ℚ) (shape : ℕ → ℚ) (noiseOn : Bool) (stream : ℕ → ℚ) :
    ℕ → ℕ → ℕ → List (List ℚ) × ℕ
  | _, 0, pos => ([], pos)
  | i, m + 1, pos =>
    let step :=
      if noiseOn then
        let nv := drawVecAux stream pos peaks.length
        (List.zipWith (fun p z => p * clip01 (shape i * z)) peaks nv, pos + peaks.length)
      else
        (peaks.map (fun p => p * shape i), pos)
    let rest := detColsAux peaks shape noiseOn stream (i + 1) m step.2
    (step.1 :: rest.1, rest.2)

def detCols (peaks : List ℚ) (shape : ℕ → ℚ) (noiseOn : Bool) (stream : ℕ → ℚ)
    (pos : ℕ) : List (List ℚ) × ℕ :=
  detColsAux peaks shape noiseOn stream 0 24 pos

/-- The stochastic branch of _generate_profile_df: a single uniform block
of n rows by len(df_stats) columns is drawn (row-major), each entry is
mapped through the quantile breakpoints of its hour and clipped to
non-negative, and the final dataframe selects the 24 canonical hour
labels, raising KeyError when a label is absent from the table. -/
def stochCols (dfStats : List StatsRow) (n : ℕ) (stream : ℕ → ℚ) (pos : ℕ) :
    Except String (List (List ℚ) × ℕ) :=
  let m := dfStats.length
  let colFor : String → Except String (List ℚ) := fun lbl =>
    match dfStats.findIdx? (fun row => row.hour == lbl) with
    | none => Except.error "KeyError"
    | some j =>
      match dfStats[j]? with
      | none => Except.error "IndexError"
      | some row => Except.ok ((List.range n).map (fun i =>
          stochValue (stream (pos + (i * m + j)))
            row.q5 row.q10 row.q25 row.q50 row.q75 row.q90 row.q95))
  match hours24.mapM colFor with
  | Except.error e => Except.error e
  | Except.ok cols => Except.ok (cols, pos + n * m)

/-- The astype(int).astype(str) normalisation of the Bus_ID column:
every id string is parsed as a Python int and re-rendered in decimal;
a non-parsable id raises ValueError for the whole column. -/
def renderIds : List LoadRow → Except String (List String)
  | [] => Except.ok []
  | r :: t =>
    match pyStrToInt? r.busId with
    | some z =>
      match renderIds t with
      | Except.ok rest => Except.ok (toString z :: rest)
      | Except.error e => Except.error e
    | none => Except.error "ValueError"

/-- Reassembly of the profile dataframe rows from the rendered ids and
the hour columns: row i carries the i-th value of every hour column. -/
def buildRowsAux (cols : List (List ℚ)) : List String → ℕ → List ProfRow
  | [], _ => []
  | id0 :: rest, i =>
    ⟨id0, cols.map (fun col => col.getD i 0)⟩ :: buildRowsAux cols rest (i + 1)

def buildRows (ids : List String) (cols : List (List ℚ)) : List ProfRow :=
  buildRowsAux cols ids 0

/-- _generate_profile_df.  The function first calls np.random.seed, so
the ambient generator state s0 is overwritten and never read; the
stochastic branch reseeds once more.  The selected peak column feeds the
deterministic branch only.  Returns the profile rows and the generator
position after the call. -/
def genProfileDf (rng : Rng) (df : List LoadRow) (dfStats : List StatsRow)
    (sel : LoadRow → ℚ) (shape : ℕ → ℚ) (stochastic noiseOn : Bool)
    (seed : ℕ) (s0 : ℕ) : Except String (List ProfRow × ℕ) :=
  let step : Except String (List (List ℚ) × ℕ) :=
    if stochastic then stochCols dfStats df.length rng.uniformStream (rng.seedFn seed)
    else Except.ok (detCols (df.map sel) shape noiseOn rng.normalStream (rng.seedFn seed))
  match step with
  | Except.error e => Except.error e
  | Except.ok (cols, pos1) =>
    match renderIds df with
    | Except.error e => Except.error e
    | Except.ok ids => Except.ok (buildRows ids cols, pos1)

/-- _generate_pv_profile_df: same hour loop over the Pg(kW) column and
the PV shape, but without reseeding, so the generator position is the
one left by the previous call. -/
def genPvProfileDf (rng : Rng) (df : List LoadRow) (pvShape : ℕ → ℚ)
    (noiseOn : Bool) (s : ℕ) : Except String (List ProfRow × ℕ) :=
  let step := detCols (df.map LoadRow.pg) pvShape noiseOn rng.normalStream s
  match renderIds df with
  | Except.error e => Except.error e
  | Except.ok ids => Except.ok (buildRows ids step.1, step.2)

/-- Multiplication of every hourly value of every row by a constant
(the stochastic reactive fallback multiplies the active profile by 0.3,
leaving Bus_ID untouched). -/
def scaleVals (c : ℚ) (rows : List ProfRow) : List ProfRow :=
  rows.map (fun r => ⟨r.busId, r.vals.map (fun v => v * c)⟩)

/-- The constructor arguments of DailyLoadProfileGenerator. -/
structure GenParams where
  df : List LoadRow
  dfStats : List StatsRow
  pvProfileType : String
  profileType : String
  addNoise : Bool
  noiseLevel : ℚ
  stochastic : Bool
  seed : ℕ

/-- The three profile dataframes produced by one generator run. -/
structure ProfileSets where
  active : List ProfRow
  reactive : List ProfRow
  pv : List ProfRow
deriving DecidableEq

/-- DailyLoadProfileGenerator.__init__ end to end: archetype selection
(only in deterministic mode), PV curve selection, active profile,
reactive profile (a fresh reseeded generation in deterministic mode, the
0.3-scaled active profile in stochastic mode), then the PV profile
continuing from the current generator position.  s0 is the ambient numpy
state on entry; the first profile generation reseeds, so s0 is dead. -/
def genAll (rng : Rng) (p : GenParams) (s0 : ℕ) : Except String ProfileSets :=
  let shapeE : Except String (ℕ → ℚ) :=
    if p.stochastic then Except.ok (fun _ => 0) else selectProfile p.profileType
  match shapeE with
  | Except.error e => Except.error e
  | Except.ok shape =>
    match selectPvProfile p.pvProfileType with
    | Except.error e => Except.error e
    | Except.ok pvShape =>
      match genProfileDf rng p.df p.dfStats LoadRow.plmax shape p.stochastic p.addNoise p.seed s0 with
      | Except.error e => Except.error e
      | Except.ok (active, s1) =>
        let reactiveE : Except String (List ProfRow × ℕ) :=
          if p.stochastic then Except.ok (scaleVals 0.3 active, s1)
          else genProfileDf rng p.df p.dfStats LoadRow.qlmax shape p.stochastic p.addNoise p.seed s1
        match reactiveE with
        | Except.error e => Except.error e
        | Except.ok (reactive, s2) =>
          match genPvProfileDf rng p.df pvShape p.addNoise s2 with
          | Except.error e => Except.error e
          | Except.ok (pv, _) => Except.ok ⟨active, reactive, pv⟩

/-- Value of row i at hour index h in a generated profile dataframe. -/
def profEntry? (res : Except String (List ProfRow × ℕ)) (i h : ℕ) : Option ℚ :=
  match res with
  | Except.ok (rows, _) =>
    match rows[i]? with
    | some row => row.vals[h]?
    | none => none
  | Except.error _ => none

/-- Value of row i at hour index h in the active profile of a full
generator run. -/
def activeEntry? (res : Except String ProfileSets) (i h : ℕ) : Option ℚ :=
  match res with
  | Except.ok sets =>
    match sets.active[i]? with
    | some row => row.vals[h]?
    | none => none
  | Except.error _ => none

/-- Modelled from the spec sentence for claim C1, for refinement
comparison only: the noise factor itself clipped to the unit interval
before being multiplied with the shape, then scaled by the peak. -/
def specNoiseValue (peak shapeVal z : ℚ) : ℚ := peak * (clip01 z * shapeVal)

/-! Network assembly and hourly load population, from loadflow.py. -/

/-- One row of the topology spreadsheet as read by _create_lines and
make_load_df: endpoint ids after str(), the electrical cells as
possibly-NaN floats, and the three peak power columns. -/
structure XlsRow where
  fromBus : String
  toBus : String
  r : PyFloat
  x : PyFloat
  length : PyFloat
  ampacity : PyFloat
  line : String
  plmax : ℚ
  qlmax : ℚ
  pg : ℚ
deriving DecidableEq

structure LineEntry where
  from_bus : ℕ
  to_bus : ℕ
  length_km : PyFloat
  r_ohm_per_km : PyFloat
  x_ohm_per_km : PyFloat
  max_i_ka : PyFloat
  name : String
deriving DecidableEq

structure LoadEntry where
  bus : ℕ
  p_mw : ℚ
  q_mvar : ℚ
deriving DecidableEq

structure GenEntry where
  bus : ℕ
  p_mw : ℚ
  vm_pu : ℚ
  scaling : ℚ
  inService : Bool
  name : String
deriving DecidableEq

/-- The assembled pandapower network state relevant to the claims: the
bus name-to-index dict, the external grid bus (the reference point, at
most one in this code), and the line, load and generator tables. -/
structure Net where
  buses : List (String × ℕ)
  extGrid : Option ℕ
  lines : List LineEntry
  loads : List LoadEntry
  gens : List GenEntry
deriving DecidableEq

/-- Python dict insertion: replace the value in place when the key is
present, append otherwise. -/
def dictInsert (d : List (String × ℕ)) (k : String) (v : ℕ) : List (String × ℕ) :=
  if d.any (fun kv => kv.1 == k) then
    d.map (fun kv => if kv.1 == k then (k, v) else kv)
  else d ++ [(k, v)]

/-- Python membership test on the dict keys. -/
def dictMem (d : List (String × ℕ)) (k : String) : Bool :=
  d.any (fun kv => kv.1 == k)

/-- Python dict subscript: KeyError when the key is absent. -/
def dictGet (d : List (String × ℕ)) (k : String) : Except String ℕ :=
  match d.find? (fun kv => kv.1 == k) with
  | some kv => Except.ok kv.2
  | none => Except.error "KeyError"

/-- The bus-creation loop of _create_buses: every node id receives the
next pandapower bus index. -/
def mkBusesAux : List String → List (String × ℕ) → ℕ → List (String × ℕ)
  | [], acc, _ => acc
  | id0 :: t, acc, i => mkBusesAux t (dictInsert acc id0 i) (i + 1)

def mkBuses (ids : List String) : List (String × ℕ) := mkBusesAux ids [] 0

/-- _create_buses: build the bus dict; when at least one bus exists, an
external grid is attached to the first created bus, otherwise none is
created. -/
def createBuses (ids : List String) : List (String × ℕ) × Option ℕ :=
  let bs := mkBuses ids
  (bs, bs.head?.map (fun kv => kv.2))

/-- _create_lines: rows whose r, x and length are all truthy are turned
into network lines (so a NaN cell counts as truthy and the row is kept);
both endpoints are then looked up in the bus dict with a plain subscript
that raises KeyError on an unknown id. -/
def createLines (buses : List (String × ℕ)) : List XlsRow → Except String (List LineEntry)
  | [] => Except.ok []
  | row :: rest =>
    if !(pyTruthy row.r && pyTruthy row.x && pyTruthy row.length) then
      createLines buses rest
    else
      match dictGet buses row.fromBus with
      | Except.error e => Except.error e
      | Except.ok fb =>
        match dictGet buses row.toBus with
        | Except.error e => Except.error e
        | Except.ok tb =>
          match createLines buses rest with
          | Except.error e => Except.error e
          | Except.ok others =>
            Except.ok (⟨fb, tb, pyDivC row.length 1000, row.r, row.x,
              pyDivC row.ampacity 1000, row.line⟩ :: others)

/-- The configuration fields of the LoadFlow dataclass used by network
assembly. -/
structure LoadFlowCfg where
  Sb : ℚ
  Vb : ℚ
  f : ℚ
  name : String
  nodeIds : List String
  xls : List XlsRow

/-- create_net_empty: buses and external grid first, then lines. -/
def createNetEmpty (cfg : LoadFlowCfg) : Except String Net :=
  let bs := createBuses cfg.nodeIds
  match createLines bs.1 cfg.xls with
  | Except.error e => Except.error e
  | Except.ok lines => Except.ok ⟨bs.1, bs.2, lines, [], []⟩

/-- One row of the load dataframe handed to _create_loads. -/
structure LoadRowIn where
  bus : String
  p_mw : ℚ
  q_mvar : ℚ
deriving DecidableEq

/-- _create_loads: a row whose bus id is not a dict key is skipped
before the subscript, so unknown buses never raise here. -/
def createLoads (buses : List (String × ℕ)) : List LoadRowIn → Except String (List LoadEntry)
  | [] => Except.ok []
  | row :: rest =>
    if !(dictMem buses row.bus) then createLoads buses rest
    else
      match dictGet buses row.bus with
      | Except.error e => Except.error e
      | Except.ok b =>
        match createLoads buses rest with
        | Except.error e => Except.error e
        | Except.ok others => Except.ok (⟨b, row.p_mw, row.q_mvar⟩ :: others)

/-- _clear_loads: drop every load row. -/
def clearLoads (net : Net) : Net := { net with loads := [] }

/-- _clear_generators: drop every generator row (called only from
_create_generators, not from the hourly path). -/
def clearGenerators (net : Net) : Net := { net with gens := [] }

/-- The intermediate concatenated dataframe of set_hourly_loads. -/
structure HourRow where
  bus : String
  p_kw : ℚ
  q_kvar : ℚ
  sign : ℚ

/-- The load rows assembled by set_hourly_loads for one hour index: one
active row per P_df entry, one reactive row per Q_df entry, one
negative-sign production row per PV_df entry, then the unit conversion
to MW and MVar. -/
def hourLoadRows (h : ℕ) (P Q PV : List ProfRow) : List LoadRowIn :=
  let active := P.map (fun r => HourRow.mk r.busId (r.vals.getD h 0) 0 1)
  let reactive := Q.map (fun r => HourRow.mk r.busId 0 (r.vals.getD h 0) 1)
  let prod := PV.map (fun r => HourRow.mk r.busId (r.vals.getD h 0) 0 (-1))
  (active ++ reactive ++ prod).map
    (fun t => ⟨t.bus, t.p_kw * t.sign / 1000, t.q_kvar / 1000⟩)

/-- set_hourly_loads: clear the loads (and only the loads), then create
the load rows of the hour. -/
def setHourlyLoads (net : Net) (h : ℕ) (P Q PV : List ProfRow) : Except String Net :=
  match createLoads (clearLoads net).buses (hourLoadRows h P Q PV) with
  | Except.error e => Except.error e
  | Except.ok ls => Except.ok { clearLoads net with loads := ls }

/-! Load-table preparation, from data_prepare.py. -/

/-- make_load_df: keep the spreadsheet rows with a non-zero peak, build
the load dataframe, normalise the Bus_ID column and run the profile
generator.  pandas builds a DataFrame with no columns at all from an
empty record list, so the Bus_ID column access of the normalisation step
raises KeyError in that case. -/
def makeLoadDf (rng : Rng) (xls : List XlsRow) (dfStats : List StatsRow)
    (stochastic : Bool) (s0 : ℕ) : Except String ProfileSets :=
  let load_data := (xls.filter
      (fun row => row.plmax != 0 || row.pg != 0 || row.qlmax != 0)).map
    (fun row => LoadRow.mk row.toBus row.plmax row.qlmax row.pg)
  if load_data.isEmpty then Except.error "KeyError"
  else genAll rng ⟨load_data, dfStats, "summer", "residential_weekday",
    false, 0.1, stochastic, 0⟩ s0

/-! Daily aggregation, from generate_static_summary_map in
power_flow_viz.py. -/

/-- The Python greater-than comparison used by max: any comparison with
NaN is false. -/
def pyGtB : PyFloat → PyFloat → Bool
  | some x, some y => decide (y < x)
  | _, _ => false

/-- Python max over a list of floats, as applied to each accumulated
loading_percent series: the first element seeds the accumulator and an
element replaces it only when strictly greater. -/
def pyMax? : List PyFloat → Option PyFloat
  | [] => none
  | a :: t => some (t.foldl (fun acc v => if pyGtB v acc then v else acc) a)

/-- The per-line daily maximum map built from the accumulated series. -/
def aggregateMax (hist : List (String × List PyFloat)) : List (String × Option PyFloat) :=
  hist.map (fun nv => (nv.1, pyMax? nv.2))

/-! Theorems settling the claims. -/

/-- C8.  Two generator runs with identical load table, quantile table,
archetype selection, noise settings, stochastic flag, seed and draw
streams produce identical active, reactive and generation profile sets,
in both modes: the result does not depend on the ambient numpy state on
entry, because profile generation reseeds first. -/
theorem C8_identical_runs (rng : Rng) (p : GenParams) (s1 s2 : ℕ) :
    genAll rng p s1 = genAll rng p s2 := rfl

/-- Python max seeded with a defined value never lets a NaN replace the
accumulator, so it computes the maximum of the defined values. -/
lemma pyFold_some (l : List PyFloat) : ∀ a : ℚ,
    l.foldl (fun acc v => if pyGtB v acc then v else acc) (some a) =
      some (l.foldl (fun acc v => match v with | some x => max acc x | none => acc) a) := by
  induction l with
  | nil => intro a; rfl
  | cons v t ih =>
    intro a
    cases v with
    | none => simpa [List.foldl_cons, pyGtB] using ih a
    | some x =>
      by_cases hx : a < x
      · have hmax : max a x = x := max_eq_right (le_of_lt hx)
        simpa [List.foldl_cons, pyGtB, hx, hmax] using ih x
      · have hmax : max a x = a := max_eq_left (le_of_not_lt hx)
        simpa [List.foldl_cons, pyGtB, hx, hmax] using ih a

/-- C5 (amended).  The daily per-line aggregate applies Python max to the
series: when the first hour value is defined the result is the running
maximum of the defined values, with NaN entries skipped; in particular
the series 10, 95, 130, 40, NaN yields 130. -/
theorem C5_max_skips_nan :
    (∀ (a : ℚ) (l : List PyFloat),
      pyMax? (some a :: l) =
        some (some (l.foldl (fun acc v => match v with | some x => max acc x | none => acc) a)))
    ∧ pyMax? [some 10, some 95, some 130, some 40, none] = some (some 130) := by
  constructor
  · intro a l
    simpa [pyMax?] using congrArg some (pyFold_some l a)
  · decide

/-- C5 counterexample.  A series that starts with NaN makes Python max
return NaN: the undefined hour is not excluded from the series, contrary
to the claim. -/
theorem C5_cex : pyMax? [none, some (130 : ℚ)] = some none
    ∧ some none ≠ some (some (130 : ℚ)) := by
  constructor
  · decide
  · decide

/-- C10.  When every spreadsheet row has all three peak columns zero, no
load record qualifies, and make_load_df raises KeyError while normalising
the Bus_ID column of the empty load table instead of returning an empty
load set. -/
theorem C10_empty_load_table (rng : Rng) (xls : List XlsRow) (dfStats : List StatsRow)
    (st : Bool) (s0 : ℕ)
    (hz : ∀ row ∈ xls, row.plmax = 0 ∧ row.qlmax = 0 ∧ row.pg = 0) :
    makeLoadDf rng xls dfStats st s0 = Except.error "KeyError" := by
  have hfilter : xls.filter
      (fun row => row.plmax != 0 || row.pg != 0 || row.qlmax != 0) = [] := by
    induction xls with
    | nil => rfl
    | cons row t ih =>
      have h0 := hz row (List.mem_cons_self row t)
      have ht := ih (fun r hr => hz r (List.mem_cons_of_mem _ hr))
      simp [List.filter_cons, h0.1, h0.2.1, h0.2.2, ht]
  simp [makeLoadDf, hfilter]

/-- Concrete all-zero spreadsheet row for the C10 witness. -/
def xlsAllZero : List XlsRow :=
  [⟨"1", "2", some 1, some 1, some 100, some 50, "L1", 0, 0, 0⟩]

/-- C10 witness at a concrete one-row spreadsheet. -/
theorem C10_witness :
    (∀ row ∈ xlsAllZero, row.plmax = 0 ∧ row.qlmax = 0 ∧ row.pg = 0)
    ∧ makeLoadDf ⟨id, fun _ => 0, fun _ => 0⟩ xlsAllZero [] false 0 = Except.error "KeyError" :=
  ⟨by decide, C10_empty_load_table ⟨id, fun _ => 0, fun _ => 0⟩ xlsAllZero [] false 0 (by decide)⟩

/-- Concrete empty-topology configuration for the C3 counterexample. -/
def cfgEmptyTopo : LoadFlowCfg := ⟨1000000, 400, 50, "net", [], []⟩

/-- C3 counterexample.  With zero buses, create_net_empty does not fail:
it returns a network successfully, and that network has no external-grid
reference point. -/
theorem C3_cex : exceptOk (createNetEmpty cfgEmptyTopo) = true
    ∧ (createNetEmpty cfgEmptyTopo).map Net.extGrid = Except.ok none :=
  ⟨rfl, rfl⟩

/-- C3 (amended).  With zero buses and no line rows, network assembly
raises no ConfigurationError: it silently returns a network with no
buses, no lines and no reference point. -/
theorem C3_zero_buses (cfg : LoadFlowCfg) (h1 : cfg.nodeIds = []) (h2 : cfg.xls = []) :
    createNetEmpty cfg = Except.ok ⟨[], none, [], [], []⟩ := by
  simp only [createNetEmpty, h1, h2]
  rfl

/-- Concrete empty-topology configuration for the C3 witness. -/
def cfgEmptyTopoW : LoadFlowCfg := ⟨2000000, 230, 60, "w", [], []⟩

/-- C3 witness at a concrete configuration. -/
theorem C3_witness : cfgEmptyTopoW.nodeIds = [] ∧ cfgEmptyTopoW.xls = []
    ∧ createNetEmpty cfgEmptyTopoW = Except.ok ⟨[], none, [], [], []⟩ :=
  ⟨rfl, rfl, C3_zero_buses cfgEmptyTopoW rfl rfl⟩

/-- Concrete network carrying one generator, for the C2 counterexample. -/
def netWithGen : Net :=
  ⟨[("1", 0)], some 0, [], [⟨0, 5, 0⟩], [⟨0, 1, 1, 1, true, "G"⟩]⟩

/-- C2 counterexample.  set_hourly_loads does not remove generators: on a
network carrying one generator it succeeds and the generator survives. -/
theorem C2_cex : setHourlyLoads netWithGen 0 [] [] [] = Except.ok { netWithGen with loads := [] }
    ∧ netWithGen.gens ≠ [] :=
  ⟨rfl, by decide⟩

/-- C2 (amended).  set_hourly_loads wholly replaces the loads: the loads
of the result are determined by the bus dict and the hour profiles alone,
never by the previous loads; but generators are left untouched rather
than removed (the hourly path also never creates any). -/
theorem C2_loads_replaced_gens_kept (net net' r : Net) (h : ℕ) (P Q PV : List ProfRow)
    (hb : net.buses = net'.buses)
    (hr : setHourlyLoads net h P Q PV = Except.ok r) :
    (setHourlyLoads net h P Q PV).map Net.loads
        = (setHourlyLoads net' h P Q PV).map Net.loads
    ∧ r.gens = net.gens := by
  constructor
  · have hbb : (clearLoads net).buses = (clearLoads net').buses := hb
    simp only [setHourlyLoads, hbb]
    cases hc : createLoads (clearLoads net').buses (hourLoadRows h P Q PV) <;>
      simp [hc, Except.map]
  · simp only [setHourlyLoads] at hr
    cases hc : createLoads (clearLoads net).buses (hourLoadRows h P Q PV) with
    | error e => rw [hc] at hr; simp at hr
    | ok ls =>
      rw [hc] at hr
      injection hr with h2
      rw [← h2]
      rfl

/-- Second concrete network, sharing the bus dict with netWithGen, for
the C2 witness. -/
def netPlainBuses : Net := ⟨[("1", 0)], none, [], [], []⟩

/-- C2 witness at concrete networks with equal bus dicts. -/
theorem C2_witness : netWithGen.buses = netPlainBuses.buses
    ∧ setHourlyLoads netWithGen 3 [] [] [] = Except.ok { netWithGen with loads := [] }
    ∧ ((setHourlyLoads netWithGen 3 [] [] []).map Net.loads
          = (setHourlyLoads netPlainBuses 3 [] [] []).map Net.loads
        ∧ ({ netWithGen with loads := [] } : Net).gens = netWithGen.gens) :=
  ⟨rfl, rfl, C2_loads_replaced_gens_kept netWithGen netPlainBuses _ 3 [] [] [] rfl rfl⟩

/-- Line row with a missing (NaN) resistance cell, for claim C4. -/
def rowMissingR : XlsRow := ⟨"A", "A", none, some 1, some 100, some 50, "L1", 0, 0, 0⟩

/-- Line row with a zero resistance cell, for claim C4. -/
def rowZeroR : XlsRow := ⟨"A", "A", some 0, some 1, some 100, some 50, "L2", 0, 0, 0⟩

/-- C4.  A line row with a missing resistance is NOT skipped, because NaN
is truthy in Python: the line is assembled with a NaN resistance, even
though the docstring of _create_lines promises that rows with missing r,
x or length are skipped.  A zero resistance row is skipped as documented. -/
theorem C4_nan_line_created :
    createLines (mkBuses ["A"]) [rowMissingR]
      = Except.ok [⟨0, 0, some (1/10), none, some 1, some (1/20), "L1"⟩]
    ∧ createLines (mkBuses ["A"]) [rowZeroR] = Except.ok [] := by
  exact ⟨by norm_num [createLines, mkBuses, mkBusesAux, dictInsert, dictGet, pyTruthy,
    pyDivC, rowMissingR], by decide⟩

/-- A key found by dict membership is found by dict subscript. -/
lemma dictGet_of_mem (d : List (String × ℕ)) (k : String) (hm : dictMem d k = true) :
    ∃ v, dictGet d k = Except.ok v := by
  unfold dictMem at hm
  unfold dictGet
  cases hfind : d.find? (fun kv => kv.1 == k) with
  | some kv => exact ⟨kv.2, rfl⟩
  | none =>
    exfalso
    rw [List.any_eq_true] at hm
    obtain ⟨kv, hkv, hp⟩ := hm
    have := List.find?_eq_none.mp hfind kv hkv
    exact absurd hp (by simpa using this)

/-- _create_loads never raises: every row is either skipped or its bus
subscript succeeds. -/
lemma createLoads_isOk (buses : List (String × ℕ)) :
    ∀ rows : List LoadRowIn, exceptOk (createLoads buses rows) = true := by
  intro rows
  induction rows with
  | nil => rfl
  | cons row rest ih =>
    cases hm : dictMem buses row.bus with
    | false => simpa [createLoads, hm] using ih
    | true =>
      obtain ⟨v, hv⟩ := dictGet_of_mem buses row.bus hm
      cases hrest : createLoads buses rest with
      | error e => rw [hrest] at ih; simp [exceptOk] at ih
      | ok others => simp [createLoads, hm, hv, hrest, exceptOk]

/-- _create_lines raises KeyError whenever some non-skipped row names a
from-bus absent from the bus dict. -/
lemma createLines_err (buses : List (String × ℕ)) :
    ∀ rows : List XlsRow,
    (∃ row ∈ rows, (pyTruthy row.r && pyTruthy row.x && pyTruthy row.length) = true
      ∧ dictMem buses row.fromBus = false) →
    exceptOk (createLines buses rows) = false := by
  intro rows
  induction rows with
  | nil => rintro ⟨row, hmem, _⟩; cases hmem
  | cons a rest ih =>
    rintro ⟨row, hmem, hcond, hfrom⟩
    rcases List.mem_cons.mp hmem with hEq | hTail
    · subst hEq
      have hget : dictGet buses row.fromBus = Except.error "KeyError" := by
        unfold dictGet
        cases hfind : buses.find? (fun kv => kv.1 == row.fromBus) with
        | none => rfl
        | some kv =>
          exfalso
          have hmem2 : dictMem buses row.fromBus = true := by
            unfold dictMem
            rw [List.any_eq_true]
            refine ⟨kv, List.mem_of_find?_eq_some hfind, ?_⟩
            have := List.find?_some hfind
            simpa using this
          rw [hmem2] at hfrom
          cases hfrom
      simp [createLines, hcond, hget, exceptOk]
    · cases hskip : (pyTruthy a.r && pyTruthy a.x && pyTruthy a.length) with
      | false => simpa [createLines, hskip] using ih ⟨row, hTail, hcond, hfrom⟩
      | true =>
        cases hfb : dictGet buses a.fromBus with
        | error e => simp [createLines, hskip, hfb, exceptOk]
        | ok fb =>
          cases htb : dictGet buses a.toBus with
          | error e => simp [createLines, hskip, hfb, htb, exceptOk]
          | ok tb =>
            have hrec := ih ⟨row, hTail, hcond, hfrom⟩
            cases hrest : createLines buses rest with
            | error e => simp [createLines, hskip, hfb, htb, hrest, exceptOk]
            | ok others => rw [hrest] at hrec; simp [exceptOk] at hrec

/-- C7 (amended).  A load row referencing an unknown bus id is silently
skipped and load creation never raises; but a line row with truthy r, x
and length referencing an unknown from-bus raises an uncaught KeyError:
for lines the inconsistency is not silently tolerated. -/
theorem C7_loads_skip_lines_raise :
    (∀ (buses : List (String × ℕ)) (rows : List LoadRowIn),
      exceptOk (createLoads buses rows) = true)
    ∧ (∀ (buses : List (String × ℕ)) (rows : List XlsRow) (row : XlsRow), row ∈ rows →
        (pyTruthy row.r && pyTruthy row.x && pyTruthy row.length) = true →
        dictMem buses row.fromBus = false →
        exceptOk (createLines buses rows) = false) :=
  ⟨fun buses rows => createLoads_isOk buses rows,
   fun buses rows row hm hc hf => createLines_err buses rows ⟨row, hm, hc, hf⟩⟩

/-- Line row whose from-bus is unknown, for claim C7. -/
def rowUnknownBus : XlsRow := ⟨"B", "A", some 1, some 1, some 100, some 50, "L3", 0, 0, 0⟩

/-- C7 counterexample.  A line row with non-zero parameters referencing
the unknown bus B raises KeyError instead of being silently tolerated. -/
theorem C7_cex : createLines (mkBuses ["A"]) [rowUnknownBus] = Except.error "KeyError" := by
  decide

lemma listGetElemMap {α β : Type} (fn : α → β) :
    ∀ (l : List α) (i : ℕ), (l.map fn)[i]? = (l[i]?).map fn := by
  intro l
  induction l with
  | nil => intro i; simp
  | cons a t ih =>
    intro i
    cases i with
    | zero => simp
    | succ j => simpa using ih j

lemma drawVecAux_length (stream : ℕ → ℚ) :
    ∀ (n pos : ℕ), (drawVecAux stream pos n).length = n := by
  intro n
  induction n with
  | zero => intro pos; rfl
  | succ m ih => intro pos; simp [drawVecAux, ih]

/-- The i-th value of a block draw starting at a position is the stream
value at that position plus i. -/
lemma drawVecAux_getD (stream : ℕ → ℚ) :
    ∀ (n pos i : ℕ), i < n → (drawVecAux stream pos n).getD i 0 = stream (pos + i) := by
  intro n
  induction n with
  | zero => intro pos i hlt; exact absurd hlt (Nat.not_lt_zero i)
  | succ m ih =>
    intro pos i hlt
    cases i with
    | zero => simp [drawVecAux]
    | succ j =>
      have hj : j < m := by omega
      simp only [drawVecAux, List.getD_cons_succ]
      rw [ih (pos + 1) j hj]
      congr 1
      omega

lemma zipWith_getD (fn : ℚ → ℚ → ℚ) :
    ∀ (l1 l2 : List ℚ) (i : ℕ), i < l1.length → i < l2.length →
    (List.zipWith fn l1 l2).getD i 0 = fn (l1.getD i 0) (l2.getD i 0) := by
  intro l1
  induction l1 with
  | nil => intro l2 i h1 _; exact absurd h1 (by simp)
  | cons a t ih =>
    intro l2 i h1 h2
    cases l2 with
    | nil => simp at h2
    | cons b t2 =>
      cases i with
      | zero => simp
      | succ j =>
        simp only [List.zipWith_cons_cons, List.getD_cons_succ]
        exact ih t2 j (by simpa using h1) (by simpa using h2)

lemma mapMul_getD (c : ℚ) : ∀ (l : List ℚ) (i : ℕ), i < l.length →
    (l.map (fun p => p * c)).getD i 0 = l.getD i 0 * c := by
  intro l
  induction l with
  | nil => intro i h; exact absurd h (by simp)
  | cons a t ih =>
    intro i h
    cases i with
    | zero => simp
    | succ j =>
      simp only [List.map_cons, List.getD_cons_succ]
      exact ih j (by simpa using h)

/-- With noise on, the k-th hour column produced by the deterministic
loop scales the peaks by the clipped product of the shape value with the
k-th block of normal draws. -/
lemma detColsAux_fst_noise (peaks : List ℚ) (shape : ℕ → ℚ) (stream : ℕ → ℚ) :
    ∀ (m i0 pos k : ℕ), k < m →
    ((detColsAux peaks shape true stream i0 m pos).1)[k]? =
      some (List.zipWith (fun p z => p * clip01 (shape (i0 + k) * z)) peaks
        (drawVecAux stream (pos + k * peaks.length) peaks.length)) := by
  intro m
  induction m with
  | zero => intro i0 pos k hlt; exact absurd hlt (Nat.not_lt_zero k)
  | succ m2 ih =>
    intro i0 pos k hlt
    cases k with
    | zero => simp [detColsAux]
    | succ j =>
      have hj : j < m2 := by omega
      have hrec := ih (i0 + 1) (pos + peaks.length) j hj
      simp only [detColsAux, if_pos, List.getElem?_cons_succ]
      rw [hrec]
      have e1 : i0 + 1 + j = i0 + (j + 1) := by omega
      have e2 : pos + peaks.length + j * peaks.length = pos + (j + 1) * peaks.length := by ring
      rw [e1, e2]

/-- Without noise, the k-th hour column scales the peaks by the plain
shape value and the generator position is untouched. -/
lemma detColsAux_fst_det (peaks : List ℚ) (shape : ℕ → ℚ) (stream : ℕ → ℚ) :
    ∀ (m i0 pos k : ℕ), k < m →
    ((detColsAux peaks shape false stream i0 m pos).1)[k]? =
      some (peaks.map (fun p => p * shape (i0 + k))) := by
  intro m
  induction m with
  | zero => intro i0 pos k hlt; exact absurd hlt (Nat.not_lt_zero k)
  | succ m2 ih =>
    intro i0 pos k hlt
    cases k with
    | zero => simp [detColsAux]
    | succ j =>
      have hj : j < m2 := by omega
      have hrec := ih (i0 + 1) pos j hj
      simp only [detColsAux, Bool.false_eq_true, ite_false, List.getElem?_cons_succ]
      rw [hrec]
      have e1 : i0 + 1 + j = i0 + (j + 1) := by omega
      rw [e1]

/-- Row i of the rebuilt dataframe pairs the i-th rendered id with the
i-th value of each hour column. -/
lemma buildRowsAux_getElem? (cols : List (List ℚ)) :
    ∀ (ids : List String) (i0 i : ℕ), i < ids.length →
    (buildRowsAux cols ids i0)[i]? =
      some ⟨ids.getD i "", cols.map (fun col => col.getD (i0 + i) 0)⟩ := by
  intro ids
  induction ids with
  | nil => intro i0 i h; exact absurd h (by simp)
  | cons a t ih =>
    intro i0 i h
    cases i with
    | zero => simp [buildRowsAux]
    | succ j =>
      have hj : j < t.length := by simpa using h
      simp only [buildRowsAux, List.getElem?_cons_succ, List.getD_cons_succ]
      rw [ih (i0 + 1) j hj]
      have e1 : i0 + 1 + j = i0 + (j + 1) := by omega
      rw [e1]

/-- When every Bus_ID parses, the astype normalisation succeeds and
preserves the row count. -/
lemma renderIds_ok : ∀ df : List LoadRow, (∀ r ∈ df, (pyStrToInt? r.busId).isSome = true) →
    ∃ ids, renderIds df = Except.ok ids ∧ ids.length = df.length := by
  intro df
  induction df with
  | nil => intro _; exact ⟨[], rfl, rfl⟩
  | cons a t ih =>
    intro hall
    obtain ⟨z, hz⟩ := Option.isSome_iff_exists.mp (hall a (List.mem_cons_self a t))
    obtain ⟨ids, hids, hlen⟩ := ih (fun r hr => hall r (List.mem_cons_of_mem _ hr))
    refine ⟨toString z :: ids, ?_, by simp [hlen]⟩
    simp [renderIds, hz, hids]

/-- _generate_profile_df in deterministic mode reduces to the hour-column
computation starting at the reseeded position, with the Bus_ID column
rendered. -/
lemma genProfileDf_det_eq (rng : Rng) (df : List LoadRow) (dfStats : List StatsRow)
    (sel : LoadRow → ℚ) (shape : ℕ → ℚ) (noiseOn : Bool) (seed s0 : ℕ)
    (ids : List String) (hids : renderIds df = Except.ok ids) :
    genProfileDf rng df dfStats sel shape false noiseOn seed s0 =
      Except.ok (buildRows ids
          (detCols (df.map sel) shape noiseOn rng.normalStream (rng.seedFn seed)).1,
        (detCols (df.map sel) shape noiseOn rng.normalStream (rng.seedFn seed)).2) := by
  simp [genProfileDf, hids]

/-- Closed form of one synthesized deterministic value: row i at hour h
is the peak of row i times the shape at h, the latter multiplied with the
per-point per-hour noise draw and clipped to the unit interval when noise
is on.  The noise draw of row i at hour h sits at offset h times the row
count plus i after the reseeded position. -/
lemma genProfileDf_det_entry (rng : Rng) (df : List LoadRow) (dfStats : List StatsRow)
    (sel : LoadRow → ℚ) (shape : ℕ → ℚ) (noiseOn : Bool) (seed s0 i h : ℕ)
    (hi : i < df.length) (hh : h < 24)
    (hids : ∀ r ∈ df, (pyStrToInt? r.busId).isSome = true) :
    profEntry? (genProfileDf rng df dfStats sel shape false noiseOn seed s0) i h =
      some ((df.map sel).getD i 0 *
        (if noiseOn then
          clip01 (shape h * rng.normalStream (rng.seedFn seed + h * df.length + i))
         else shape h)) := by
  obtain ⟨ids, hidseq, hlen⟩ := renderIds_ok df hids
  rw [genProfileDf_det_eq rng df dfStats sel shape noiseOn seed s0 ids hidseq]
  simp only [profEntry?, buildRows]
  rw [buildRowsAux_getElem? _ ids 0 i (by rw [hlen]; exact hi)]
  simp only [listGetElemMap, Nat.zero_add]
  have hpeaks : (df.map sel).length = df.length := List.length_map df sel
  cases noiseOn with
  | true =>
    rw [detCols, detColsAux_fst_noise (df.map sel) shape rng.normalStream 24 0 (rng.seedFn seed) h hh]
    simp only [Option.map_some', Nat.zero_add]
    rw [zipWith_getD _ _ _ i (by rw [hpeaks]; exact hi)
      (by rw [drawVecAux_length, hpeaks]; exact hi)]
    rw [drawVecAux_getD rng.normalStream (df.map sel).length
      (rng.seedFn seed + h * (df.map sel).length) i (by rw [hpeaks]; exact hi)]
    simp [hpeaks]
  | false =>
    rw [detCols, detColsAux_fst_det (df.map sel) shape rng.normalStream 24 0 (rng.seedFn seed) h hh]
    simp only [Option.map_some', Nat.zero_add]
    rw [mapMul_getD _ _ i (by rw [hpeaks]; exact hi)]
    simp

/-- C1 (amended).  In deterministic mode without noise, the synthesized
active value of every load point at every hour equals the peak times the
archetype shape at that hour.  With noise enabled, the shape value is
first multiplied with the per-point per-hour noise draw, that product is
clipped to the unit interval, and the clipped product then scales the
peak: the clip is applied to the product, not to the noise factor before
the multiplication. -/
theorem C1_det_profile (rng : Rng) (df : List LoadRow) (dfStats : List StatsRow)
    (sel : LoadRow → ℚ) (shape : ℕ → ℚ) (noiseOn : Bool) (seed s0 i h : ℕ)
    (hi : i < df.length) (hh : h < 24)
    (hids : ∀ r ∈ df, (pyStrToInt? r.busId).isSome = true) :
    profEntry? (genProfileDf rng df dfStats sel shape false noiseOn seed s0) i h =
      some ((df.map sel).getD i 0 *
        (if noiseOn then
          clip01 (shape h * rng.normalStream (rng.seedFn seed + h * df.length + i))
         else shape h)) :=
  genProfileDf_det_entry rng df dfStats sel shape noiseOn seed s0 i h hi hh hids

/-- Stream pack whose normal draws are all 3, for the C1 witness. -/
def rngC1W : Rng := ⟨fun s => s, fun _ => 3, fun _ => 0⟩

/-- One-point load table for the C1 witness. -/
def dfC1W : List LoadRow := [⟨"1", 2, 0, 0⟩]

/-- C1 witness at a concrete one-point table with noise on. -/
theorem C1_witness :
    ((0 < dfC1W.length ∧ 0 < 24) ∧ ∀ r ∈ dfC1W, (pyStrToInt? r.busId).isSome = true)
    ∧ profEntry? (genProfileDf rngC1W dfC1W [] LoadRow.plmax (fun _ => 1/2) false true 0 0) 0 0 =
      some ((dfC1W.map LoadRow.plmax).getD 0 0 *
        (if true then
          clip01 ((fun _ => (1 : ℚ)/2) 0 * rngC1W.normalStream (rngC1W.seedFn 0 + 0 * dfC1W.length + 0))
         else (fun _ => (1 : ℚ)/2) 0)) :=
  ⟨⟨⟨by decide, by decide⟩, by decide⟩,
   C1_det_profile rngC1W dfC1W [] LoadRow.plmax (fun _ => 1/2) true 0 0 0 0
     (by decide) (by decide) (by decide)⟩

/-- Stream pack whose normal draws are all 4, for the C1 counterexample. -/
def rngC1X : Rng := ⟨fun s => s, fun _ => 4, fun _ => 0⟩

/-- One-point load table with peak 1, for the C1 counterexample. -/
def dfC1X : List LoadRow := [⟨"1", 1, 0, 0⟩]

/-- C1 counterexample.  With the residential weekday archetype, peak 1
and a noise draw of 4 at hour 0, the code synthesizes the value 1, while
the claimed formula (noise clipped to the unit interval before being
multiplied with the shape) yields 1/4. -/
theorem C1_cex :
    profEntry? (genProfileDf rngC1X dfC1X []
        LoadRow.plmax (fun h => residential_weekday.getD h 0) false true 0 0) 0 0 = some 1
    ∧ specNoiseValue 1 (residential_weekday.getD 0 0) 4 = 1/4
    ∧ (1 : ℚ) ≠ 1/4 := by
  refine ⟨?_, by norm_num [specNoiseValue, residential_weekday, clip01, max_def, min_def], by norm_num⟩
  have h1 := genProfileDf_det_entry rngC1X dfC1X []
    LoadRow.plmax (fun h => residential_weekday.getD h 0) true 0 0 0 0
    (by decide) (by decide) (by decide)
  rw [h1]
  norm_num [dfC1X, rngC1X, residential_weekday, clip01, max_def, min_def]

/-- Keys found after a dict insertion were already keys or are the
inserted key. -/
lemma dictMem_insert (d : List (String × ℕ)) (k0 k : String) (v : ℕ)
    (h : dictMem (dictInsert d k0 v) k = true) : dictMem d k = true ∨ k = k0 := by
  unfold dictInsert at h
  by_cases hmem : d.any (fun kv => kv.1 == k0) = true
  · rw [if_pos hmem] at h
    unfold dictMem at h ⊢
    rw [List.any_eq_true] at h
    obtain ⟨kv, hkv, hp⟩ := h
    rw [List.mem_map] at hkv
    obtain ⟨kv0, hkv0, hkv0eq⟩ := hkv
    by_cases heq : (kv0.1 == k0) = true
    · right
      rw [← hkv0eq, if_pos heq] at hp
      exact (eq_of_beq hp).symm
    · left
      rw [List.any_eq_true]
      refine ⟨kv0, hkv0, ?_⟩
      rw [← hkv0eq, if_neg heq] at hp
      exact hp
  · rw [if_neg hmem] at h
    unfold dictMem at h ⊢
    rw [List.any_eq_true] at h
    obtain ⟨kv, hkv, hp⟩ := h
    rcases List.mem_append.mp hkv with h1 | h2
    · left
      rw [List.any_eq_true]
      exact ⟨kv, h1, hp⟩
    · right
      have hkv2 : kv = (k0, v) := by simpa using h2
      rw [hkv2] at hp
      exact (eq_of_beq hp).symm

/-- Every key of the bus dict built by _create_buses is a node id. -/
lemma mkBusesAux_mem (k : String) : ∀ (ids : List String) (acc : List (String × ℕ)) (i : ℕ),
    dictMem (mkBusesAux ids acc i) k = true → k ∈ ids ∨ dictMem acc k = true := by
  intro ids
  induction ids with
  | nil => intro acc i h; exact Or.inr h
  | cons a t ih =>
    intro acc i h
    simp only [mkBusesAux] at h
    rcases ih (dictInsert acc a i) (i + 1) h with h1 | h2
    · exact Or.inl (List.mem_cons_of_mem a h1)
    · rcases dictMem_insert acc a k i h2 with h3 | h4
      · exact Or.inr h3
      · exact Or.inl (by rw [h4]; exact List.mem_cons_self a t)

lemma mkBuses_mem (ids : List String) (k : String)
    (h : dictMem (mkBuses ids) k = true) : k ∈ ids := by
  rcases mkBusesAux_mem k ids [] 0 h with h1 | h2
  · exact h1
  · simp [dictMem] at h2

/-- astype(int) on the Bus_ID column raises ValueError as soon as one id
fails to parse as a Python int. -/
lemma renderIds_err : ∀ df : List LoadRow, (∃ r ∈ df, pyStrToInt? r.busId = none) →
    renderIds df = Except.error "ValueError" := by
  intro df
  induction df with
  | nil => rintro ⟨r, hr, _⟩; cases hr
  | cons a t ih =>
    rintro ⟨r, hr, hparse⟩
    rcases List.mem_cons.mp hr with hEq | hTail
    · subst hEq
      simp [renderIds, hparse]
    · cases hp : pyStrToInt? a.busId with
      | none => simp [renderIds, hp]
      | some z => simp [renderIds, hp, ih ⟨r, hTail, hparse⟩]

/-- _generate_profile_df raises when some Bus_ID is not int-parsable. -/
lemma genProfileDf_err (rng : Rng) (df : List LoadRow) (dfStats : List StatsRow)
    (sel : LoadRow → ℚ) (shape : ℕ → ℚ) (stoch noiseOn : Bool) (seed s0 : ℕ)
    (hbad : ∃ r ∈ df, pyStrToInt? r.busId = none) :
    exceptOk (genProfileDf rng df dfStats sel shape stoch noiseOn seed s0) = false := by
  have hre := renderIds_err df hbad
  cases stoch with
  | false => simp [genProfileDf, hre, exceptOk]
  | true =>
    cases hsc : stochCols dfStats df.length rng.uniformStream (rng.seedFn seed) with
    | error e => simp [genProfileDf, hsc, exceptOk]
    | ok cp =>
      obtain ⟨cols, pos1⟩ := cp
      simp [genProfileDf, hsc, hre, exceptOk]

/-- C9.  Bus_ID normalisation casts each id to int and back to str, so a
generator run raises an exception whenever some load point id is not
int-parsable; and a load point whose decimal rendering is not among the
node-table ids is silently dropped by per-hour load creation, because
the dict lookup key no longer matches. -/
theorem C9_id_normalisation :
    (∀ (rng : Rng) (p : GenParams) (s : ℕ) (r : LoadRow), r ∈ p.df →
      pyStrToInt? r.busId = none → exceptOk (genAll rng p s) = false)
    ∧ (∀ (ns : List String) (sid : String) (z : ℤ) (pm qm : ℚ),
      pyStrToInt? sid = some z → toString z ∉ ns →
      createLoads (mkBuses ns) [⟨toString z, pm, qm⟩] = Except.ok []) := by
  constructor
  · intro rng p s r hr hparse
    have hbad : ∃ r2 ∈ p.df, pyStrToInt? r2.busId = none := ⟨r, hr, hparse⟩
    cases hsh : (if p.stochastic then Except.ok (fun _ => (0 : ℚ))
        else selectProfile p.profileType) with
    | error e => simp [genAll, hsh, exceptOk]
    | ok shape =>
      cases hpv : selectPvProfile p.pvProfileType with
      | error e => simp [genAll, hsh, hpv, exceptOk]
      | ok pvShape =>
        have h1 := genProfileDf_err rng p.df p.dfStats LoadRow.plmax shape
          p.stochastic p.addNoise p.seed s hbad
        cases hgp : genProfileDf rng p.df p.dfStats LoadRow.plmax shape
            p.stochastic p.addNoise p.seed s with
        | error e => simp [genAll, hsh, hpv, hgp, exceptOk]
        | ok ap =>
          rw [hgp] at h1
          simp [exceptOk] at h1
  · intro ns sid z pm qm hparse hnotin
    have hmem : dictMem (mkBuses ns) (toString z) = false := by
      cases hm : dictMem (mkBuses ns) (toString z) with
      | false => rfl
      | true => exact absurd (mkBuses_mem ns _ hm) hnotin
    simp [createLoads, hmem]

/-- Load table carrying a non-int-parsable id, for the C9 witness. -/
def dfBadId : List LoadRow := [⟨"BT7", 5, 1, 0⟩]

/-- Generator parameters over dfBadId, for the C9 witness. -/
def pBadId : GenParams := ⟨dfBadId, [], "night", "office", false, 0.1, false, 0⟩

/-- Abstract stream pack for the C9 witness. -/
def rngC9 : Rng := ⟨id, fun _ => 0, fun _ => 0⟩

/-- C9 witness: the run over a table with id BT7 fails, and the id 007,
rendered as 7, is dropped by load creation against a node table keyed by
the original string 007. -/
theorem C9_witness :
    ((⟨"BT7", 5, 1, 0⟩ : LoadRow) ∈ pBadId.df ∧ pyStrToInt? "BT7" = none
      ∧ exceptOk (genAll rngC9 pBadId 0) = false)
    ∧ (pyStrToInt? "007" = some 7 ∧ toString (7 : ℤ) ∉ ["007"]
      ∧ createLoads (mkBuses ["007"]) [⟨toString (7 : ℤ), 5, 1⟩] = Except.ok []) :=
  ⟨⟨by decide, by decide,
    C9_id_normalisation.1 rngC9 pBadId 0 ⟨"BT7", 5, 1, 0⟩ (by decide) (by decide)⟩,
   ⟨by decide, by decide,
    C9_id_normalisation.2 ["007"] "007" 7 5 1 (by decide) (by decide)⟩⟩

lemma seg_mono (u v x0 x1 y0 y1 : ℚ) (hx : x0 < x1) (hy : y0 ≤ y1) (huv : u ≤ v) :
    seg u x0 x1 y0 y1 ≤ seg v x0 x1 y0 y1 := by
  unfold seg
  have hx0 : (0 : ℚ) < x1 - x0 := by linarith
  have h1 : (u - x0) * (y1 - y0) ≤ (v - x0) * (y1 - y0) :=
    mul_le_mul_of_nonneg_right (by linarith) (by linarith)
  have h2 : (u - x0) * (y1 - y0) / (x1 - x0) ≤ (v - x0) * (y1 - y0) / (x1 - x0) :=
    (div_le_div_right hx0).mpr h1
  linarith

lemma seg_left_eq (x0 x1 y0 y1 : ℚ) : seg x0 x0 x1 y0 y1 = y0 := by
  unfold seg
  simp

lemma seg_right_eq (x0 x1 y0 y1 : ℚ) (hx : x0 < x1) : seg x1 x0 x1 y0 y1 = y1 := by
  unfold seg
  have hne : x1 - x0 ≠ 0 := ne_of_gt (by linarith)
  field_simp

lemma seg_left_le (u x0 x1 y0 y1 : ℚ) (hx : x0 < x1) (hy : y0 ≤ y1) (hu : x0 ≤ u) :
    y0 ≤ seg u x0 x1 y0 y1 := by
  have h := seg_mono x0 u x0 x1 y0 y1 hx hy hu
  rw [seg_left_eq] at h
  exact h

lemma seg_le_right (u x0 x1 y0 y1 : ℚ) (hx : x0 < x1) (hy : y0 ≤ y1) (hu : u ≤ x1) :
    seg u x0 x1 y0 y1 ≤ y1 := by
  have h := seg_mono u x1 x0 x1 y0 y1 hx hy hu
  rw [seg_right_eq x0 x1 y0 y1 hx] at h
  exact h

/-- The interpolated value never goes below the lowest breakpoint of a
sorted table. -/
lemma interp_ge_a (u a b c d e f g : ℚ) (hab : a ≤ b) (hbc : b ≤ c) (hcd : c ≤ d)
    (hde : d ≤ e) (hef : e ≤ f) (hfg : f ≤ g) :
    a ≤ npInterp7 u a b c d e f g := by
  unfold npInterp7
  split_ifs with h1 h2 h3 h4 h5 h6 h7
  · exact le_refl a
  · exact seg_left_le u 0.05 0.10 a b (by norm_num) hab (by linarith)
  · exact le_trans hab (seg_left_le u 0.10 0.25 b c (by norm_num) hbc (by linarith))
  · exact le_trans (le_trans hab hbc)
      (seg_left_le u 0.25 0.50 c d (by norm_num) hcd (by linarith))
  · exact le_trans (le_trans (le_trans hab hbc) hcd)
      (seg_left_le u 0.50 0.75 d e (by norm_num) hde (by linarith))
  · exact le_trans (le_trans (le_trans (le_trans hab hbc) hcd) hde)
      (seg_left_le u 0.75 0.90 e f (by norm_num) hef (by linarith))
  · exact le_trans (le_trans (le_trans (le_trans (le_trans hab hbc) hcd) hde) hef)
      (seg_left_le u 0.90 0.95 f g (by norm_num) hfg (by linarith))
  · linarith

/-- The interpolated value never exceeds the highest breakpoint of a
sorted table. -/
lemma interp_le_g (u a b c d e f g : ℚ) (hab : a ≤ b) (hbc : b ≤ c) (hcd : c ≤ d)
    (hde : d ≤ e) (hef : e ≤ f) (hfg : f ≤ g) :
    npInterp7 u a b c d e f g ≤ g := by
  unfold npInterp7
  split_ifs with h1 h2 h3 h4 h5 h6 h7
  · linarith
  · exact le_trans (seg_le_right u 0.05 0.10 a b (by norm_num) hab h2) (by linarith)
  · exact le_trans (seg_le_right u 0.10 0.25 b c (by norm_num) hbc h3) (by linarith)
  · exact le_trans (seg_le_right u 0.25 0.50 c d (by norm_num) hcd h4) (by linarith)
  · exact le_trans (seg_le_right u 0.50 0.75 d e (by norm_num) hde h5) (by linarith)
  · exact le_trans (seg_le_right u 0.75 0.90 e f (by norm_num) hef h6) (by linarith)
  · exact seg_le_right u 0.90 0.95 f g (by norm_num) hfg h7
  · exact le_refl g

lemma interp_lb_b (u a b c d e f g : ℚ) (hu : (0.10 : ℚ) ≤ u) (hab : a ≤ b) (hbc : b ≤ c)
    (hcd : c ≤ d) (hde : d ≤ e) (hef : e ≤ f) (hfg : f ≤ g) :
    b ≤ npInterp7 u a b c d e f g := by
  unfold npInterp7
  split_ifs with h1 h2 h3 h4 h5 h6 h7
  · linarith
  · have hu2 : u = 0.10 := le_antisymm h2 hu
    rw [hu2, seg_right_eq 0.05 0.10 a b (by norm_num)]
  · exact seg_left_le u 0.10 0.25 b c (by norm_num) hbc hu
  · exact le_trans hbc (seg_left_le u 0.25 0.50 c d (by norm_num) hcd (by linarith))
  · exact le_trans (le_trans hbc hcd)
      (seg_left_le u 0.50 0.75 d e (by norm_num) hde (by linarith))
  · exact le_trans (le_trans (le_trans hbc hcd) hde)
      (seg_left_le u 0.75 0.90 e f (by norm_num) hef (by linarith))
  · exact le_trans (le_trans (le_trans (le_trans hbc hcd) hde) hef)
      (seg_left_le u 0.90 0.95 f g (by norm_num) hfg (by linarith))
  · linarith

lemma interp_lb_c (u a b c d e f g : ℚ) (hu : (0.25 : ℚ) ≤ u) (hab : a ≤ b) (hbc : b ≤ c)
    (hcd : c ≤ d) (hde : d ≤ e) (hef : e ≤ f) (hfg : f ≤ g) :
    c ≤ npInterp7 u a b c d e f g := by
  unfold npInterp7
  split_ifs with h1 h2 h3 h4 h5 h6 h7
  · linarith
  · linarith [seg_le_right u 0.05 0.10 a b (by norm_num : (0.05:ℚ) < 0.10) hab h2]
  · have hu2 : u = 0.25 := le_antisymm h3 hu
    rw [hu2, seg_right_eq 0.10 0.25 b c (by norm_num)]
  · exact seg_left_le u 0.25 0.50 c d (by norm_num) hcd hu
  · exact le_trans hcd (seg_left_le u 0.50 0.75 d e (by norm_num) hde (by linarith))
  · exact le_trans (le_trans hcd hde)
      (seg_left_le u 0.75 0.90 e f (by norm_num) hef (by linarith))
  · exact le_trans (le_trans (le_trans hcd hde) hef)
      (seg_left_le u 0.90 0.95 f g (by norm_num) hfg (by linarith))
  · linarith

lemma interp_lb_d (u a b c d e f g : ℚ) (hu : (0.50 : ℚ) ≤ u) (hab : a ≤ b) (hbc : b ≤ c)
    (hcd : c ≤ d) (hde : d ≤ e) (hef : e ≤ f) (hfg : f ≤ g) :
    d ≤ npInterp7 u a b c d e f g := by
  unfold npInterp7
  split_ifs with h1 h2 h3 h4 h5 h6 h7
  · linarith
  · linarith [seg_le_right u 0.05 0.10 a b (by norm_num : (0.05:ℚ) < 0.10) hab h2]
  · linarith [seg_le_right u 0.10 0.25 b c (by norm_num : (0.10:ℚ) < 0.25) hbc h3]
  · have hu2 : u = 0.50 := le_antisymm h4 hu
    rw [hu2, seg_right_eq 0.25 0.50 c d (by norm_num)]
  · exact seg_left_le u 0.50 0.75 d e (by norm_num) hde hu
  · exact le_trans hde (seg_left_le u 0.75 0.90 e f (by norm_num) hef (by linarith))
  · exact le_trans (le_trans hde hef)
      (seg_left_le u 0.90 0.95 f g (by norm_num) hfg (by linarith))
  · linarith

lemma interp_lb_e (u a b c d e f g : ℚ) (hu : (0.75 : ℚ) ≤ u) (hab : a ≤ b) (hbc : b ≤ c)
    (hcd : c ≤ d) (hde : d ≤ e) (hef : e ≤ f) (hfg : f ≤ g) :
    e ≤ npInterp7 u a b c d e f g := by
  unfold npInterp7
  split_ifs with h1 h2 h3 h4 h5 h6 h7
  · linarith
  · linarith [seg_le_right u 0.05 0.10 a b (by norm_num : (0.05:ℚ) < 0.10) hab h2]
  · linarith [seg_le_right u 0.10 0.25 b c (by norm_num : (0.10:ℚ) < 0.25) hbc h3]
  · linarith [seg_le_right u 0.25 0.50 c d (by norm_num : (0.25:ℚ) < 0.50) hcd h4]
  · have hu2 : u = 0.75 := le_antisymm h5 hu
    rw [hu2, seg_right_eq 0.50 0.75 d e (by norm_num)]
  · exact seg_left_le u 0.75 0.90 e f (by norm_num) hef hu
  · exact le_trans hef (seg_left_le u 0.90 0.95 f g (by norm_num) hfg (by linarith))
  · linarith

lemma interp_lb_f (u a b c d e f g : ℚ) (hu : (0.90 : ℚ) ≤ u) (hab : a ≤ b) (hbc : b ≤ c)
    (hcd : c ≤ d) (hde : d ≤ e) (hef : e ≤ f) (hfg : f ≤ g) :
    f ≤ npInterp7 u a b c d e f g := by
  unfold npInterp7
  split_ifs with h1 h2 h3 h4 h5 h6 h7
  · linarith
  · linarith [seg_le_right u 0.05 0.10 a b (by norm_num : (0.05:ℚ) < 0.10) hab h2]
  · linarith [seg_le_right u 0.10 0.25 b c (by norm_num : (0.10:ℚ) < 0.25) hbc h3]
  · linarith [seg_le_right u 0.25 0.50 c d (by norm_num : (0.25:ℚ) < 0.50) hcd h4]
  · linarith [seg_le_right u 0.50 0.75 d e (by norm_num : (0.50:ℚ) < 0.75) hde h5]
  · have hu2 : u = 0.90 := le_antisymm h6 hu
    rw [hu2, seg_right_eq 0.75 0.90 e f (by norm_num)]
  · exact seg_left_le u 0.90 0.95 f g (by norm_num) hfg hu
  · linarith

/-- Piecewise-linear interpolation through sorted breakpoints is
monotone non-decreasing in the sample. -/
lemma interp_mono (u v a b c d e f g : ℚ) (huv : u ≤ v)
    (hab : a ≤ b) (hbc : b ≤ c) (hcd : c ≤ d) (hde : d ≤ e) (hef : e ≤ f) (hfg : f ≤ g) :
    npInterp7 u a b c d e f g ≤ npInterp7 v a b c d e f g := by
  by_cases h1 : u ≤ 0.05
  · have hu_eq : npInterp7 u a b c d e f g = a := by simp [npInterp7, h1]
    rw [hu_eq]
    exact interp_ge_a v a b c d e f g hab hbc hcd hde hef hfg
  · by_cases h2 : u ≤ 0.10
    · have hu_eq : npInterp7 u a b c d e f g = seg u 0.05 0.10 a b := by
        simp [npInterp7, h1, h2]
      rw [hu_eq]
      by_cases hv : v ≤ 0.10
      · have hv1 : ¬ v ≤ (0.05 : ℚ) := by linarith
        have hv_eq : npInterp7 v a b c d e f g = seg v 0.05 0.10 a b := by
          simp [npInterp7, hv1, hv]
        rw [hv_eq]
        exact seg_mono u v 0.05 0.10 a b (by norm_num) hab huv
      · have hb := interp_lb_b v a b c d e f g (by linarith) hab hbc hcd hde hef hfg
        have hseg := seg_le_right u 0.05 0.10 a b (by norm_num) hab h2
        linarith
    · by_cases h3 : u ≤ 0.25
      · have hu_eq : npInterp7 u a b c d e f g = seg u 0.10 0.25 b c := by
          simp [npInterp7, h1, h2, h3]
        rw [hu_eq]
        by_cases hv : v ≤ 0.25
        · have hv1 : ¬ v ≤ (0.05 : ℚ) := by linarith
          have hv2 : ¬ v ≤ (0.10 : ℚ) := by linarith
          have hv_eq : npInterp7 v a b c d e f g = seg v 0.10 0.25 b c := by
            simp [npInterp7, hv1, hv2, hv]
          rw [hv_eq]
          exact seg_mono u v 0.10 0.25 b c (by norm_num) hbc huv
        · have hb := interp_lb_c v a b c d e f g (by linarith) hab hbc hcd hde hef hfg
          have hseg := seg_le_right u 0.10 0.25 b c (by norm_num) hbc h3
          linarith
      · by_cases h4 : u ≤ 0.50
        · have hu_eq : npInterp7 u a b c d e f g = seg u 0.25 0.50 c d := by
            simp [npInterp7, h1, h2, h3, h4]
          rw [hu_eq]
          by_cases hv : v ≤ 0.50
          · have hv1 : ¬ v ≤ (0.05 : ℚ) := by linarith
            have hv2 : ¬ v ≤ (0.10 : ℚ) := by linarith
            have hv3 : ¬ v ≤ (0.25 : ℚ) := by linarith
            have hv_eq : npInterp7 v a b c d e f g = seg v 0.25 0.50 c d := by
              simp [npInterp7, hv1, hv2, hv3, hv]
            rw [hv_eq]
            exact seg_mono u v 0.25 0.50 c d (by norm_num) hcd huv
          · have hb := interp_lb_d v a b c d e f g (by linarith) hab hbc hcd hde hef hfg
            have hseg := seg_le_right u 0.25 0.50 c d (by norm_num) hcd h4
            linarith
        · by_cases h5 : u ≤ 0.75
          · have hu_eq : npInterp7 u a b c d e f g = seg u 0.50 0.75 d e := by
              simp [npInterp7, h1, h2, h3, h4, h5]
            rw [hu_eq]
            by_cases hv : v ≤ 0.75
            · have hv1 : ¬ v ≤ (0.05 : ℚ) := by linarith
              have hv2 : ¬ v ≤ (0.10 : ℚ) := by linarith
              have hv3 : ¬ v ≤ (0.25 : ℚ) := by linarith
              have hv4 : ¬ v ≤ (0.50 : ℚ) := by linarith
              have hv_eq : npInterp7 v a b c d e f g = seg v 0.50 0.75 d e := by
                simp [npInterp7, hv1, hv2, hv3, hv4, hv]
              rw [hv_eq]
              exact seg_mono u v 0.50 0.75 d e (by norm_num) hde huv
            · have hb := interp_lb_e v a b c d e f g (by linarith) hab hbc hcd hde hef hfg
              have hseg := seg_le_right u 0.50 0.75 d e (by norm_num) hde h5
              linarith
          · by_cases h6 : u ≤ 0.90
            · have hu_eq : npInterp7 u a b c d e f g = seg u 0.75 0.90 e f := by
                simp [npInterp7, h1, h2, h3, h4, h5, h6]
              rw [hu_eq]
              by_cases hv : v ≤ 0.90
              · have hv1 : ¬ v ≤ (0.05 : ℚ) := by linarith
                have hv2 : ¬ v ≤ (0.10 : ℚ) := by linarith
                have hv3 : ¬ v ≤ (0.25 : ℚ) := by linarith
                have hv4 : ¬ v ≤ (0.50 : ℚ) := by linarith
                have hv5 : ¬ v ≤ (0.75 : ℚ) := by linarith
                have hv_eq : npInterp7 v a b c d e f g = seg v 0.75 0.90 e f := by
                  simp [npInterp7, hv1, hv2, hv3, hv4, hv5, hv]
                rw [hv_eq]
                exact seg_mono u v 0.75 0.90 e f (by norm_num) hef huv
              · have hb := interp_lb_f v a b c d e f g (by linarith) hab hbc hcd hde hef hfg
                have hseg := seg_le_right u 0.75 0.90 e f (by norm_num) hef h6
                linarith
            · by_cases h7 : u ≤ 0.95
              · have hu_eq : npInterp7 u a b c d e f g = seg u 0.90 0.95 f g := by
                  simp [npInterp7, h1, h2, h3, h4, h5, h6, h7]
                rw [hu_eq]
                by_cases hv : v ≤ 0.95
                · have hv1 : ¬ v ≤ (0.05 : ℚ) := by linarith
                  have hv2 : ¬ v ≤ (0.10 : ℚ) := by linarith
                  have hv3 : ¬ v ≤ (0.25 : ℚ) := by linarith
                  have hv4 : ¬ v ≤ (0.50 : ℚ) := by linarith
                  have hv5 : ¬ v ≤ (0.75 : ℚ) := by linarith
                  have hv6 : ¬ v ≤ (0.90 : ℚ) := by linarith
                  have hv_eq : npInterp7 v a b c d e f g = seg v 0.90 0.95 f g := by
                    simp [npInterp7, hv1, hv2, hv3, hv4, hv5, hv6, hv]
                  rw [hv_eq]
                  exact seg_mono u v 0.90 0.95 f g (by norm_num) hfg huv
                · have hv1 : ¬ v ≤ (0.05 : ℚ) := by linarith
                  have hv2 : ¬ v ≤ (0.10 : ℚ) := by linarith
                  have hv3 : ¬ v ≤ (0.25 : ℚ) := by linarith
                  have hv4 : ¬ v ≤ (0.50 : ℚ) := by linarith
                  have hv5 : ¬ v ≤ (0.75 : ℚ) := by linarith
                  have hv6 : ¬ v ≤ (0.90 : ℚ) := by linarith
                  have hv_eq : npInterp7 v a b c d e f g = g := by
                    simp [npInterp7, hv1, hv2, hv3, hv4, hv5, hv6, hv]
                  rw [hv_eq]
                  exact seg_le_right u 0.90 0.95 f g (by norm_num) hfg h7
              · have hu_eq : npInterp7 u a b c d e f g = g := by
                  simp [npInterp7, h1, h2, h3, h4, h5, h6, h7]
                have hv1 : ¬ v ≤ (0.05 : ℚ) := by linarith
                have hv2 : ¬ v ≤ (0.10 : ℚ) := by linarith
                have hv3 : ¬ v ≤ (0.25 : ℚ) := by linarith
                have hv4 : ¬ v ≤ (0.50 : ℚ) := by linarith
                have hv5 : ¬ v ≤ (0.75 : ℚ) := by linarith
                have hv6 : ¬ v ≤ (0.90 : ℚ) := by linarith
                have hv7 : ¬ v ≤ (0.95 : ℚ) := by linarith
                have hv_eq : npInterp7 v a b c d e f g = g := by
                  simp [npInterp7, hv1, hv2, hv3, hv4, hv5, hv6, hv7]
                rw [hu_eq, hv_eq]

/-- C6.  For a sorted quantile table with a non-negative top quantile,
every interpolated and non-negativity-clipped stochastic value lies
between Q5 and Q95, and the map is monotone non-decreasing in the
uniform sample. -/
theorem C6_quantile_bounds (u v a b c d e f g : ℚ)
    (hab : a ≤ b) (hbc : b ≤ c) (hcd : c ≤ d) (hde : d ≤ e) (hef : e ≤ f) (hfg : f ≤ g)
    (hg : 0 ≤ g) (hu0 : 0 ≤ u) (hu1 : u ≤ 1) (hv0 : 0 ≤ v) (hv1 : v ≤ 1) (huv : u ≤ v) :
    (a ≤ stochValue u a b c d e f g ∧ stochValue u a b c d e f g ≤ g)
    ∧ stochValue u a b c d e f g ≤ stochValue v a b c d e f g := by
  have hlow := interp_ge_a u a b c d e f g hab hbc hcd hde hef hfg
  have hhigh := interp_le_g u a b c d e f g hab hbc hcd hde hef hfg
  have hmono := interp_mono u v a b c d e f g huv hab hbc hcd hde hef hfg
  unfold stochValue clip0
  refine ⟨⟨?_, ?_⟩, ?_⟩
  · exact le_trans hlow (le_max_left _ _)
  · exact max_le hhigh hg
  · exact max_le_max hmono (le_refl 0)

/-- C6 witness at the sorted table 1..7 and samples one third and one
half. -/
theorem C6_witness :
    (((1 : ℚ) ≤ 2 ∧ (2 : ℚ) ≤ 3 ∧ (3 : ℚ) ≤ 4 ∧ (4 : ℚ) ≤ 5 ∧ (5 : ℚ) ≤ 6 ∧ (6 : ℚ) ≤ 7)
      ∧ ((0 : ℚ) ≤ 7 ∧ (0 : ℚ) ≤ 1/3 ∧ (1 : ℚ)/3 ≤ 1 ∧ (0 : ℚ) ≤ 1/2 ∧ (1 : ℚ)/2 ≤ 1
        ∧ (1 : ℚ)/3 ≤ 1/2))
    ∧ ((1 ≤ stochValue (1/3) 1 2 3 4 5 6 7 ∧ stochValue (1/3) 1 2 3 4 5 6 7 ≤ 7)
      ∧ stochValue (1/3) 1 2 3 4 5 6 7 ≤ stochValue (1/2) 1 2 3 4 5 6 7) :=
  ⟨⟨⟨by norm_num, by norm_num, by norm_num, by norm_num, by norm_num, by norm_num⟩,
    ⟨by norm_num, by norm_num, by norm_num, by norm_num, by norm_num, by norm_num⟩⟩,
   C6_quantile_bounds (1/3) (1/2) 1 2 3 4 5 6 7 (by norm_num) (by norm_num) (by norm_num)
     (by norm_num) (by norm_num) (by norm_num) (by norm_num) (by norm_num) (by norm_num)
     (by norm_num) (by norm_num) (by norm_num)⟩

/-- C7 witness at concrete inputs. -/
theorem C7_witness :
    (rowUnknownBus ∈ [rowUnknownBus]
      ∧ (pyTruthy rowUnknownBus.r && pyTruthy rowUnknownBus.x && pyTruthy rowUnknownBus.length) = true
      ∧ dictMem (mkBuses ["A"]) rowUnknownBus.fromBus = false)
    ∧ exceptOk (createLoads (mkBuses ["A"]) [⟨"B", 1, 0⟩]) = true
    ∧ exceptOk (createLines (mkBuses ["A"]) [rowUnknownBus]) = false :=
  ⟨⟨by decide, by decide, by decide⟩,
   C7_loads_skip_lines_raise.1 (mkBuses ["A"]) [⟨"B", 1, 0⟩],
   C7_loads_skip_lines_raise.2 (mkBuses ["A"]) [rowUnknownBus] rowUnknownBus
     (by decide) (by decide) (by decide)⟩

end PFV
